import Mathlib

/-!
Shallow embedding of `src/gitsync.js` (GitSync: GitHub issue ↔ Azure DevOps
work item reconciliation engine).

JavaScript strings are modelled as Lean `String`; JS `String.prototype.replace`
with a string pattern (first occurrence only) is `replaceFirstStr`; the regex
global replace `/.../g` is `replaceAllStr`; `split` on a one-character
separator is `splitOnCharStr`.  JS objects used as string maps are modelled as
ordered association lists (`List (String × String)`), matching `Object.keys`
iteration order.  Timestamps are `Nat` (the code only compares `Date` values).
The markdown/HTML converters (`showdown` `makeHtml` / `makeMarkdown`) are
opaque parameters `conv : String → String`.  Remote services are modelled with
an explicit store of work items plus a transport oracle recording which remote
calls succeed.
-/

/-- JS whitespace test used by `String.prototype.trim` (common cases). -/
def wspChar (c : Char) : Bool :=
  c == ' ' || c == '\t' || c == '\n' || c == '\r'

/-- JS `String.prototype.trim` on the character list. -/
def trimL (s : List Char) : List Char :=
  ((s.dropWhile wspChar).reverse.dropWhile wspChar).reverse

/-- JS `String.prototype.trim`. -/
def trimStr (s : String) : String :=
  ⟨trimL s.data⟩

/-- JS `str.split(c)` for a one-character separator, on character lists. -/
def splitOnCharL (c : Char) : List Char → List (List Char)
  | [] => [[]]
  | x :: xs =>
    let r := splitOnCharL c xs
    if x = c then [] :: r
    else
      match r with
      | [] => [[x]]
      | h :: t => (x :: h) :: t

/-- JS `str.split(c)` for a one-character separator. -/
def splitOnCharStr (s : String) (c : Char) : List String :=
  (splitOnCharL c s.data).map (fun l => ⟨l⟩)

/-- JS `str.replace(pat, repl)` with a string pattern: replaces only the
first occurrence, on character lists. -/
def replaceFirstAux (pat repl : List Char) : List Char → List Char
  | [] => if pat.isPrefixOf ([] : List Char) then repl else []
  | c :: rest =>
    if pat.isPrefixOf (c :: rest) then repl ++ (c :: rest).drop pat.length
    else c :: replaceFirstAux pat repl rest

/-- JS `str.replace(pat, repl)` with a string pattern (first occurrence). -/
def replaceFirstStr (s pat repl : String) : String :=
  ⟨replaceFirstAux pat.data repl.data s.data⟩

/-- JS `str.replace(/pat/g, repl)` on character lists, written with a fuel
argument (the remaining string length bounds the recursion depth, every step
consumes at least one character) so that the recursion is structural and
kernel-reducible. -/
def replaceAllFuel (pat repl : List Char) : Nat → List Char → List Char
  | 0, s => s
  | _ + 1, [] => []
  | fuel + 1, c :: rest =>
    if pat ≠ [] ∧ pat.isPrefixOf (c :: rest) then
      repl ++ replaceAllFuel pat repl fuel ((c :: rest).drop pat.length)
    else
      c :: replaceAllFuel pat repl fuel rest

/-- JS `str.replace(/pat/g, repl)`: replaces every occurrence. -/
def replaceAllL (pat repl s : List Char) : List Char :=
  replaceAllFuel pat repl s.length s

/-- JS `str.replace(/pat/g, repl)`. -/
def replaceAllStr (s pat repl : String) : String :=
  ⟨replaceAllL pat.data repl.data s.data⟩

/-- JS `str.toLowerCase()` (ASCII case folding, as `Char.toLower`). -/
def toLowerStr (s : String) : String :=
  ⟨s.data.map Char.toLower⟩

/-- JS `str.includes(pat)` / WIQL `CONTAINS`: substring containment. -/
def containsSub (s pat : String) : Bool :=
  decide (pat.data <:+: s.data)

/-- JS truthiness filter for strings: the empty string is falsy. -/
def truthyStr (o : Option String) : Option String :=
  match o with
  | some s => if s = "" then none else some s
  | none => none

/-- Ordered string-map lookup (JS `obj[key]`). -/
def lookupKey (m : List (String × String)) (k : String) : Option String :=
  (m.find? (fun q => q.1 == k)).map (fun q => q.2)

/-- JS property assignment `obj[k] = v` on an ordered string map: overwrites
an existing key in place, otherwise appends (insertion order preserved). -/
def setKey (m : List (String × String)) (k v : String) : List (String × String) :=
  if m.any (fun q => q.1 == k) then
    m.map (fun q => if q.1 == k then (k, v) else q)
  else m ++ [(k, v)]

/-! ## Data model (GitHub payload and merged configuration) -/

/-- A GitHub label (`label.name`). -/
structure Label where
  name : String
deriving DecidableEq

/-- A GitHub user (`user.login`, `user.html_url`). -/
structure GhUser where
  login : String
  html_url : String
deriving DecidableEq

/-- The `config.issue` part of the merged configuration/payload. -/
structure IssueCfg where
  number : Nat
  title : String
  body : String
  labels : Option (List Label)
  assignee : Option GhUser
  url : String
  repository_url : String
  user : GhUser
deriving DecidableEq

/-- The `config.comment` part of the payload (issue-comment events). -/
structure CommentCfg where
  id : Nat
  body : String
  html_url : String
  user : GhUser
deriving DecidableEq

/-- The `config.repository` part of the payload. -/
structure RepoCfg where
  full_name : String
deriving DecidableEq

/-- `config.ado.mappings` (the handle-mapping table container). -/
structure AdoMappings where
  handles : Option (List (String × String))
deriving DecidableEq

/-- The `config.ado` part of the configuration.  The state table
(`config.ado.states`) is a JS object `{closed: ..., deleted: ..., reopened: ...}`
modelled as an ordered association list so that `Object.keys` iteration is
faithful. -/
structure AdoCfg where
  states : List (String × String)
  mappings : Option AdoMappings
  assignedTo : Option String
  areaPath : Option String
  iterationPath : Option String
  bypassRules : Bool
  autoCreate : Bool
  project : String
  wit : String
deriving DecidableEq

/-- The merged configuration seen by `performWork` and the event handlers. -/
structure Config where
  action : String
  issue : IssueCfg
  repository : RepoCfg
  comment : CommentCfg
  label : Label
  closed_at : Option String
  ado : AdoCfg
deriving DecidableEq

/-! ## Field mapper -/

/-- `cleanUrl`: `url.replace("api.github.com/repos/", "github.com/")`
(JS `replace` with a string pattern rewrites the first occurrence only). -/
def cleanUrl (url : String) : String :=
  replaceFirstStr url "api.github.com/repos/" "github.com/"

/-- `createLabels(seed, labelsObj)`: appends `GitHub Label: <name>;` for each
label to the seed tag string; a missing (`undefined`) label array returns the
seed unchanged. -/
def createLabels (seed : String) (labelsObj : Option (List Label)) : String :=
  match labelsObj with
  | none => seed
  | some ls => ls.foldl (fun acc l => acc ++ "GitHub Label: " ++ l.name ++ ";") seed

/-- `getAssignee(config, useDefault)`: explicit per-issue handle mapping first
(only when the issue has an assignee and a mapping table exists and the mapped
value is truthy), else optionally the configured default `config.ado.assignedTo`
when `useDefault` is set. -/
def getAssignee (cfg : Config) (useDefault : Bool) : Option String :=
  let mapped : Option String :=
    match cfg.issue.assignee, cfg.ado.mappings with
    | some a, some m =>
      match m.handles with
      | some hs => truthyStr (lookupKey hs a.login)
      | none => none
    | _, _ => none
  match mapped with
  | some v => some v
  | none => if useDefault then truthyStr cfg.ado.assignedTo else none

/-- `objectFlip(obj)`: `Object.keys(obj).forEach(key => ret[obj[key]] = key)` —
value-to-key flip where a later key overwrites an earlier one on value
collision. -/
def objectFlip (m : List (String × String)) : List (String × String) :=
  m.foldl (fun ret p => setKey ret p.2 p.1) []

/-- Reverse state lookup used by `updateIssue`:
`Object.keys(states).find(k => states[k] === wiObj.fields["System.State"])`. -/
def deriveStateKey (states : List (String × String)) (v : String) : Option String :=
  (states.find? (fun p => p.2 == v)).map (fun p => p.1)

/-- JS property access `states[k]` on the configured state table. -/
def stateValue (states : List (String × String)) (k : String) : Option String :=
  (states.find? (fun p => p.1 == k)).map (fun p => p.2)

/-- `noado` exclude-label test:
`config.issue?.labels?.some(x => x.name?.toLowerCase() === "noado")`. -/
def hasNoado (labels : Option (List Label)) : Bool :=
  match labels with
  | none => false
  | some ls => ls.any (fun x => toLowerStr x.name == "noado")

/-! ## Patch documents (JSON-Patch operations sent to the mirror service) -/

/-- A patch operation value: a string field value, a relation link object, or
JS `undefined` (a missing configured state maps to an undefined value). -/
inductive PatchValue where
  | str (s : String)
  | link (rel : String) (url : String)
  | undefined
deriving DecidableEq

/-- Coerce an optional configured string into a patch value. -/
def PatchValue.ofOpt : Option String → PatchValue
  | some s => .str s
  | none => .undefined

/-- One `{op, path, value?}` JSON-Patch operation. -/
structure PatchOp where
  op : String
  path : String
  value : Option PatchValue := none
deriving DecidableEq

/-- The audit-history field path. -/
def histPath : String := "/fields/System.History"

/-- Rendering of `config.issue?.assignee?.login` inside a template literal:
JS interpolates a missing value as the string `undefined`. -/
def loginOrUndef (a : Option GhUser) : String :=
  match a with
  | some u => u.login
  | none => "undefined"

/-! History strings: faithful transcriptions of the template literals from the
event handlers (apostrophes written as `\x27`). -/

/-- Shared head of every history entry:
`GitHub issue #<n>: <a href="<cleanUrl url>" target="_new"><title></a> in
<a href="<cleanUrl repository_url>" target="_blank"><full_name></a>`. -/
def historyHead (cfg : Config) : String :=
  "GitHub issue #" ++ toString cfg.issue.number ++ ": <a href=\"" ++
    cleanUrl cfg.issue.url ++ "\" target=\"_new\">" ++ cfg.issue.title ++
    "</a> in <a href=\"" ++ cleanUrl cfg.issue.repository_url ++
    "\" target=\"_blank\">" ++ cfg.repository.full_name ++ "</a>"

/-- Shared tail naming the triggering actor:
` by <a href="<user.html_url>" target="_blank"><user.login></a>`. -/
def historyActor (u : GhUser) : String :=
  " by <a href=\"" ++ u.html_url ++ "\" target=\"_blank\">" ++ u.login ++ "</a>"

/-- History entry built by `createWorkItem` (it says `created in` rather than
`in`, so it is written out in full). -/
def createHistory (cfg : Config) : String :=
  "GitHub issue #" ++ toString cfg.issue.number ++ ": <a href=\"" ++
    cleanUrl cfg.issue.url ++ "\" target=\"_new\">" ++ cfg.issue.title ++
    "</a> created in <a href=\"" ++ cleanUrl cfg.issue.repository_url ++
    "\" target=\"_blank\">" ++ cfg.repository.full_name ++ "</a>" ++
    historyActor cfg.issue.user

/-- History entry built by `closeWorkItem`. -/
def closeHistory (cfg : Config) : String :=
  historyHead cfg ++ " closed" ++ historyActor cfg.issue.user

/-- History entry built by `deleteWorkItem`. -/
def deleteHistory (cfg : Config) : String :=
  historyHead cfg ++ " removed" ++ historyActor cfg.issue.user

/-- History entry built by `reopenWorkItem`. -/
def reopenHistory (cfg : Config) : String :=
  historyHead cfg ++ " reopened" ++ historyActor cfg.issue.user

/-- History entry built by `editWorkItem`. -/
def editHistory (cfg : Config) : String :=
  historyHead cfg ++ " edited" ++ historyActor cfg.issue.user

/-- History entry built by `labelWorkItem`. -/
def labelHistory (cfg : Config) : String :=
  historyHead cfg ++ " addition of label \x27" ++ cfg.label.name ++ "\x27" ++
    historyActor cfg.issue.user

/-- History entry built by `unlabelWorkItem`. -/
def unlabelHistory (cfg : Config) : String :=
  historyHead cfg ++ " removal of label \x27" ++ cfg.label.name ++ "\x27" ++
    historyActor cfg.issue.user

/-- History entry built by `assignWorkItem`. -/
def assignHistory (cfg : Config) : String :=
  historyHead cfg ++ " assigned to \x27" ++ loginOrUndef cfg.issue.assignee ++
    "\x27" ++ historyActor cfg.issue.user

/-- History entry built by `unassignWorkItem`. -/
def unassignHistory (cfg : Config) : String :=
  historyHead cfg ++ " removal of assignment to \x27" ++
    loginOrUndef cfg.issue.assignee ++ "\x27" ++ historyActor cfg.issue.user

/-- History entry built by `addComment` (actor is the comment author, and the
converted comment body plus a permalink are embedded). -/
def commentHistory (conv : String → String) (cfg : Config) : String :=
  historyHead cfg ++ " comment added" ++ historyActor cfg.comment.user ++
    "<br />" ++ "Comment #<a href=\"" ++ cfg.comment.html_url ++
    "\" target=\"_blank\">" ++ toString cfg.comment.id ++ "</a>:<br /><br />" ++
    conv cfg.comment.body

/-! ## Mutation builders (one per lifecycle event) -/

/-- The `System.Tags` value assembled by `createWorkItem`:
`` `GitHub Issue #${number};GitHub Repo: ${full_name};` `` extended by
`createLabels`. -/
def createTagsValue (cfg : Config) : String :=
  createLabels
    ("GitHub Issue #" ++ toString cfg.issue.number ++ ";" ++ "GitHub Repo: " ++
      cfg.repository.full_name ++ ";")
    cfg.issue.labels

/-- Patch document assembled by `createWorkItem` (the part after the
idempotency lookup): title, converted body into description and repro steps, a
hard-coded parent link, the cross-reference tag string, a hyperlink relation,
a history entry, then conditional assignee / area path / iteration path /
created-by operations. -/
def createPatchDoc (conv : String → String) (cfg : Config) : List PatchOp :=
  let html := conv cfg.issue.body
  [ { op := "add", path := "/fields/System.Title",
      value := some (.str cfg.issue.title) },
    { op := "add", path := "/fields/System.Description",
      value := some (.str (if html = "" then "" else html)) },
    { op := "add", path := "/fields/Microsoft.VSTS.TCM.ReproSteps",
      value := some (.str (if html = "" then "" else html)) },
    { op := "add", path := "/relations/-",
      value := some (.link "System.LinkTypes.Hierarchy-Reverse"
        "https://dev.azure.com/msazure/one/_apis/wit/workItems/24493735") },
    { op := "add", path := "/fields/System.Tags",
      value := some (.str (createTagsValue cfg)) },
    { op := "add", path := "/relations/-",
      value := some (.link "Hyperlink" (cleanUrl cfg.issue.url)) },
    { op := "add", path := histPath,
      value := some (.str (createHistory cfg)) } ]
  ++ (match getAssignee cfg true with
      | some a => [{ op := "add", path := "/fields/System.AssignedTo",
                     value := some (.str a) }]
      | none => [])
  ++ (match truthyStr cfg.ado.areaPath with
      | some p => [{ op := "add", path := "/fields/System.AreaPath",
                     value := some (.str p) }]
      | none => [])
  ++ (match truthyStr cfg.ado.iterationPath with
      | some p => [{ op := "add", path := "/fields/System.IterationPath",
                     value := some (.str p) }]
      | none => [])
  ++ (if cfg.ado.bypassRules then
        [{ op := "add", path := "/fields/System.CreatedBy",
           value := some (.str cfg.issue.user.login) }]
      else [])

/-- Patch document built by `closeWorkItem`: state := states.closed, and a
history entry only when `config.closed_at != ""` (loose inequality: only the
literal empty string suppresses the entry). -/
def closePatchDoc (cfg : Config) : List PatchOp :=
  [ { op := "add", path := "/fields/System.State",
      value := some (PatchValue.ofOpt (stateValue cfg.ado.states "closed")) } ]
  ++ (if cfg.closed_at ≠ some "" then
        [{ op := "add", path := histPath, value := some (.str (closeHistory cfg)) }]
      else [])

/-- Patch document built by `deleteWorkItem`: state := states.deleted, the
resolution-reason sentinel, and a history entry. -/
def deletePatchDoc (cfg : Config) : List PatchOp :=
  [ { op := "add", path := "/fields/System.State",
      value := some (PatchValue.ofOpt (stateValue cfg.ado.states "deleted")) },
    { op := "add", path := "/fields/IntuneAgile.ResolutionReason",
      value := some (.str "Won\x27t Fix") },
    { op := "add", path := histPath,
      value := some (.str (deleteHistory cfg)) } ]

/-- Patch document built by `reopenWorkItem`. -/
def reopenPatchDoc (cfg : Config) : List PatchOp :=
  [ { op := "add", path := "/fields/System.State",
      value := some (PatchValue.ofOpt (stateValue cfg.ado.states "reopened")) },
    { op := "add", path := histPath,
      value := some (.str (reopenHistory cfg)) } ]

/-- Patch document built by `editWorkItem`: replaces title, description and
repro steps, and appends a history entry. -/
def editPatchDoc (conv : String → String) (cfg : Config) : List PatchOp :=
  let html := conv cfg.issue.body
  [ { op := "replace", path := "/fields/System.Title",
      value := some (.str cfg.issue.title) },
    { op := "replace", path := "/fields/System.Description",
      value := some (.str (if html = "" then "" else html)) },
    { op := "replace", path := "/fields/Microsoft.VSTS.TCM.ReproSteps",
      value := some (.str (if html = "" then "" else html)) },
    { op := "add", path := histPath,
      value := some (.str (editHistory cfg)) } ]

/-- The single-label tag substring `createLabels("", [label])`. -/
def labelTagValue (l : Label) : String :=
  createLabels "" (some [l])

/-- Patch document built by `labelWorkItem`: adds the new single-label tag
string and a history entry. -/
def labelPatchDoc (cfg : Config) : List PatchOp :=
  [ { op := "add", path := "/fields/System.Tags",
      value := some (.str (labelTagValue cfg.label)) },
    { op := "add", path := histPath,
      value := some (.str (labelHistory cfg)) } ]

/-- The tag-string subtraction performed by `unlabelWorkItem`:
`workItem.fields["System.Tags"].replace(createLabels("", [label]), "")`. -/
def unlabelTags (currentTags : String) (l : Label) : String :=
  replaceFirstStr currentTags (labelTagValue l) ""

/-- Patch document built by `unlabelWorkItem` given the located work item's
current tag field value: replaces the tag field with the subtraction result
and appends a history entry. -/
def unlabelPatchDoc (cfg : Config) (currentTags : String) : List PatchOp :=
  [ { op := "replace", path := "/fields/System.Tags",
      value := some (.str (unlabelTags currentTags cfg.label)) },
    { op := "add", path := histPath,
      value := some (.str (unlabelHistory cfg)) } ]

/-- Patch document built by `assignWorkItem`: adds the resolved assignee, or
removes the assignee field when no mirror assignee is resolvable; then a
history entry. -/
def assignPatchDoc (cfg : Config) : List PatchOp :=
  (match getAssignee cfg false with
   | some a => [{ op := "add", path := "/fields/System.AssignedTo",
                  value := some (.str a) }]
   | none => [{ op := "remove", path := "/fields/System.AssignedTo" }])
  ++ [ { op := "add", path := histPath,
         value := some (.str (assignHistory cfg)) } ]

/-- Patch document built by `unassignWorkItem`. -/
def unassignPatchDoc (cfg : Config) : List PatchOp :=
  [ { op := "remove", path := "/fields/System.AssignedTo" },
    { op := "add", path := histPath,
      value := some (.str (unassignHistory cfg)) } ]

/-- Patch document built by `addComment`: a single history entry embedding the
converted comment body. -/
def commentPatchDoc (conv : String → String) (cfg : Config) : List PatchOp :=
  [ { op := "add", path := histPath,
      value := some (.str (commentHistory conv cfg)) } ]

/-- The ten lifecycle events handled by `performWork`'s switch. -/
inductive GhAction where
  | opened | closed | deleted | reopened | edited
  | labeled | unlabeled | assigned | unassigned | commented
deriving DecidableEq

/-- The patch document built for each lifecycle event (`currentTags` is the
located work item's tag field, needed only by the unlabel handler). -/
def buildPatch (conv : String → String) (cfg : Config) (currentTags : String) :
    GhAction → List PatchOp
  | .opened => createPatchDoc conv cfg
  | .closed => closePatchDoc cfg
  | .deleted => deletePatchDoc cfg
  | .reopened => reopenPatchDoc cfg
  | .edited => editPatchDoc conv cfg
  | .labeled => labelPatchDoc cfg
  | .unlabeled => unlabelPatchDoc cfg currentTags
  | .assigned => assignPatchDoc cfg
  | .unassigned => unassignPatchDoc cfg
  | .commented => commentPatchDoc conv cfg

/-- `performWork`, at the level of which mutation set is chosen: if the issue
carries the `noado` exclude-label the delete mutation is applied regardless of
the triggering action; otherwise the switch over `config.action` selects the
event handler's patch document (`none` for unrecognized actions). -/
def performWork (conv : String → String) (cfg : Config) (currentTags : String) :
    Option (List PatchOp) :=
  if hasNoado cfg.issue.labels = true then some (deletePatchDoc cfg)
  else
    match cfg.action with
    | "opened" => some (createPatchDoc conv cfg)
    | "closed" => some (closePatchDoc cfg)
    | "deleted" => some (deletePatchDoc cfg)
    | "reopened" => some (reopenPatchDoc cfg)
    | "edited" => some (editPatchDoc conv cfg)
    | "labeled" => some (labelPatchDoc cfg)
    | "unlabeled" => some (unlabelPatchDoc cfg currentTags)
    | "assigned" => some (assignPatchDoc cfg)
    | "unassigned" => some (unassignPatchDoc cfg)
    | "created" => some (commentPatchDoc conv cfg)
    | _ => none

/-! ## Work item locator and sync executor -/

/-- A mirror work item as seen by the locator (identity and tag field; other
fields are not consulted by the lookup-or-create protocol). -/
structure WorkItem where
  id : Nat
  tags : String
deriving DecidableEq

/-- The mirror service's store of work items plus a fresh-id counter. -/
structure MirrorState where
  items : List WorkItem
  nextId : Nat
deriving DecidableEq

/-- Transport oracle: which remote calls succeed during one operation
(`getWorkItemTrackingApi`, `queryByWiql`, `getWorkItem`, create/update). -/
structure Transport where
  connOk : Bool
  queryOk : Bool
  fetchOk : Bool
  writeOk : Bool
deriving DecidableEq

/-- The all-success transport. -/
def trOK : Transport := ⟨true, true, true, true⟩

/-- The WIQL tag filter of `getWorkItem`: both
`[System.Tags] CONTAINS 'GitHub Issue #<n>'` and
`[System.Tags] CONTAINS 'GitHub Repo: <full_name>'`. -/
def wiMatches (w : WorkItem) (cfg : Config) : Bool :=
  containsSub w.tags ("GitHub Issue #" ++ toString cfg.issue.number) &&
  containsSub w.tags ("GitHub Repo: " ++ cfg.repository.full_name)

/-- Number of work items in the store matching the locator query for the
configuration's (repository, issue number) pair. -/
def countMatches (st : MirrorState) (cfg : Config) : Nat :=
  (st.items.filter (fun w => wiMatches w cfg)).length

/-- Result of `getWorkItem`: `-1` (error), `null` (not found), or the fetched
work item. -/
inductive LocResult where
  | err
  | notFound
  | found (w : WorkItem)
deriving DecidableEq

/-- `getWorkItem(config, skipQuery)`: skip returns `null` with no remote call;
a connection or query failure returns `-1` (and marks the action failed); more
than one match takes the first; the single match is fetched (a fetch failure
again returns `-1`); zero matches return `null`. -/
def getWorkItem (tr : Transport) (st : MirrorState) (cfg : Config)
    (skipQuery : Bool) : LocResult :=
  if skipQuery then .notFound
  else if tr.connOk = false then .err
  else if tr.queryOk = false then .err
  else
    match (st.items.filter (fun w => wiMatches w cfg)).head? with
    | some w => if tr.fetchOk then .found w else .err
    | none => .notFound

/-- Result value of `createWorkItem`: the sentinel `0` ("already exists"),
the sentinel `-1` (error), or the created item. -/
inductive CreateResult where
  | alreadyExists
  | err
  | created (w : WorkItem)
deriving DecidableEq

/-- Outcome of one `createWorkItem` call: returned value, resulting store and
whether `core.setFailed` was invoked. -/
structure CreateOutcome where
  result : CreateResult
  store : MirrorState
  failed : Bool
deriving DecidableEq

/-- `createWorkItem(config, skipQuery)`: looks up first and cancels creation
when the lookup result is truthy.  NOTE (faithful to the source): the guard is
`if (!!workItem)`, and the error sentinel `-1` is truthy in JS, so a locator
transport failure also takes the "already exists" early return.  Otherwise the
patch document is assembled and submitted; the new item carries the assembled
tag string. -/
def createWorkItem (tr : Transport) (conv : String → String) (cfg : Config)
    (st : MirrorState) (skipQuery : Bool) : CreateOutcome :=
  match getWorkItem tr st cfg skipQuery with
  | .err => ⟨.alreadyExists, st, true⟩
  | .found _ => ⟨.alreadyExists, st, false⟩
  | .notFound =>
    if tr.writeOk then
      let w : WorkItem := ⟨st.nextId, createTagsValue cfg⟩
      ⟨.created w, ⟨st.items ++ [w], st.nextId + 1⟩, false⟩
    else ⟨.err, st, true⟩

/-- Returned value of `updateWorkItem`: the sentinel `0` (skipped), `-1`
(error), or the updated item's id as submitted (`none` models submitting
against `workItem.id === undefined`). -/
inductive UpdateOutcomeK where
  | skipped
  | err
  | updatedOk (id : Option Nat)
deriving DecidableEq

/-- Outcome of one `updateWorkItem` call: returned value, resulting store,
the target ids of every patch submission actually issued to the mirror
service (`none` = an undefined id), and the failed flag. -/
structure UpdateRes where
  outcome : UpdateOutcomeK
  store : MirrorState
  calls : List (Option Nat)
  failed : Bool
deriving DecidableEq

/-- `updateWorkItem(config, patchDoc)`: locates the target, auto-creates when
configured, else skips with the sentinel `0`.  NOTE (faithful to the source):
the guard is `if (!workItem)`, and the locator's error sentinel `-1` is truthy
in JS, so after a locator transport failure the function falls through and
submits the patch against `workItem.id === undefined` — a remote mutation call
is still issued.  Field contents of a successful patch are not modelled (no
claim consults them); the submission itself is recorded in `calls`. -/
def updateWorkItem (tr : Transport) (conv : String → String) (cfg : Config)
    (st : MirrorState) (patchDoc : List PatchOp) : UpdateRes :=
  match getWorkItem tr st cfg false with
  | .err =>
    if tr.writeOk then ⟨.updatedOk none, st, [none], true⟩
    else ⟨.err, st, [none], true⟩
  | .notFound =>
    if cfg.ado.autoCreate then
      let c := createWorkItem tr conv cfg st true
      match c.result with
      | .created w =>
        if tr.writeOk then ⟨.updatedOk (some w.id), c.store, [some w.id], c.failed⟩
        else ⟨.err, c.store, [some w.id], true⟩
      | _ =>
        if tr.writeOk then ⟨.updatedOk none, c.store, [none], true⟩
        else ⟨.err, c.store, [none], true⟩
    else ⟨.skipped, st, [], false⟩
  | .found w =>
    if tr.writeOk then ⟨.updatedOk (some w.id), st, [some w.id], false⟩
    else ⟨.err, st, [some w.id], true⟩

/-! ## Reverse reconciler (`updateIssue`) -/

/-- The fields of a mirror work item fetched by `updateIssue`
(`System.Title`, `System.Description`, `System.State`, `System.ChangedDate`,
`System.AssignedTo?.uniqueName`, `System.Tags`). -/
structure WiFields where
  title : String
  description : Option String
  state : String
  changedDate : Nat
  assignedTo : Option String
  tags : String
deriving DecidableEq

/-- The origin issue snapshot fetched by `updateIssue` via the issue number
parsed from the tags. -/
structure GhIssueData where
  title : String
  body : String
  state : String
  updated_at : Nat
  assignee : Option GhUser
  labels : Option (List Label)
deriving DecidableEq

/-- Issue-number extraction from the tag field:
`tags.split(";")?.find(x => x.includes("GitHub Issue #"))?.split("#")[1]`,
with the subsequent `if (!issue_number)` falsiness guard (both a missing
element and an empty string skip the item). -/
def parsedIssueNumber (tags : String) : Option String :=
  let raw :=
    ((splitOnCharStr tags ';').find? (fun x => containsSub x "GitHub Issue #")).bind
      (fun x => (splitOnCharStr x '#').get? 1)
  match raw with
  | none => none
  | some s => if s = "" then none else some s

/-- Candidate origin body computed by `updateIssue`:
`converter.makeMarkdown(description ?? "").replace(/<br>/g, "").trim()`. -/
def computedBody (conv : String → String) (wi : WiFields) : String :=
  trimStr (replaceAllStr (conv (wi.description.getD "")) "<br>" "")

/-- Candidate origin assignee computed by `updateIssue`:
`assignedTo ? objectFlip(config.ado.mappings?.handles ?? {})?.[assignedTo.toLowerCase()] : null`. -/
def computedAssignee (cfg : Config) (wi : WiFields) : Option String :=
  match wi.assignedTo with
  | none => none
  | some a =>
    lookupKey (objectFlip ((cfg.ado.mappings.bind (fun m => m.handles)).getD []))
      (toLowerStr a)

/-- What one `updateIssue` reconciliation did to the origin issue. -/
inductive ReverseAction where
  | skippedNoIssueNumber
  | skippedStale
  | skippedNoChange
  | updated (title : String) (body : String) (state : Option String)
      (assignees : List String)
deriving DecidableEq

/-- Whether the reconciliation issued an origin update call. -/
def isWrite : ReverseAction → Bool
  | .updated _ _ _ _ => true
  | _ => false

/-- `updateIssue(config, client, workItem)` on the fetched work item fields
`wi` and the fetched origin issue `issue`: parse the issue number from the
tags (skip when absent); proceed only when the work item changed strictly more
recently than the issue was updated and the issue does not carry the `noado`
label; compute candidate title/body/state/assignee; write back only when at
least one candidate differs (assignee compared case-insensitively). -/
def updateIssue (conv : String → String) (cfg : Config) (wi : WiFields)
    (issue : GhIssueData) : ReverseAction :=
  match parsedIssueNumber wi.tags with
  | none => .skippedNoIssueNumber
  | some _ =>
    if wi.changedDate > issue.updated_at ∧ hasNoado issue.labels = false then
      let title := wi.title
      let body := computedBody conv wi
      let state := deriveStateKey cfg.ado.states wi.state
      let ghAssignedTo := computedAssignee cfg wi
      if title ≠ issue.title ∨ body ≠ issue.body ∨ state ≠ some issue.state ∨
          ghAssignedTo.map toLowerStr ≠
            (issue.assignee.map (fun u => u.login)).map toLowerStr then
        .updated title body state
          (match ghAssignedTo with | some g => [g] | none => [])
      else .skippedNoChange
    else .skippedStale

/-! ## Shared concrete fixtures -/

/-- A concrete GitHub user. -/
def userA : GhUser := ⟨ "alice", "https://github.com/alice"⟩

/-- A concrete issue comment. -/
def commentA : CommentCfg :=
  ⟨ 1, "c", "https://github.com/acme/widgets/issues/42", userA⟩

/-- The spec's scenario configuration: issue #42 opened in `acme/widgets` with
labels `[bug]` and no assignee, minimal ADO configuration. -/
def cfgScenario : Config :=
  { action := "opened"
    issue :=
      { number := 42, title := "T", body := "B", labels := some [⟨ "bug"⟩]
        assignee := none
        url := "https://api.github.com/repos/acme/widgets/issues/42"
        repository_url := "https://api.github.com/repos/acme/widgets"
        user := userA }
    repository := ⟨ "acme/widgets"⟩
    comment := commentA
    label := ⟨ "bug"⟩
    closed_at := none
    ado :=
      { states := [("closed", "Closed"), ("deleted", "Removed"), ("reopened", "Active")]
        mappings := none, assignedTo := none, areaPath := none
        iterationPath := none, bypassRules := false, autoCreate := false
        project := "P", wit := "Issue" } }

/-- A configured state table whose closed and deleted entries collide on the
same mirror state value. -/
def statesDup : List (String × String) :=
  [("closed", "Done"), ("deleted", "Done"), ("reopened", "Active")]

/-- `cfgScenario` with the one-entry state table `closed ↦ Done`. -/
def cfgStatesDone : Config :=
  { cfgScenario with ado := { cfgScenario.ado with states := [("closed", "Done")] } }

/-- Mirror work item fields that agree with `issEq` in every computed
candidate value, changed more recently than the issue was updated. -/
def wiEq : WiFields :=
  { title := "Same", description := none, state := "Done", changedDate := 5
    assignedTo := none, tags := "GitHub Issue #7" }

/-- Origin issue snapshot agreeing with `wiEq`, updated at time 3. -/
def issEq : GhIssueData :=
  { title := "Same", body := "", state := "closed", updated_at := 3
    assignee := none, labels := none }

/-- `wiEq` with a diverging title (forces a reverse write). -/
def wiW : WiFields :=
  { title := "New", description := none, state := "Done", changedDate := 5
    assignedTo := none, tags := "GitHub Issue #7" }

/-- `cfgScenario` as a close event whose closing timestamp is the empty
string. -/
def cfgClosedEmpty : Config :=
  { cfgScenario with action := "closed", closed_at := some "" }

/-- Transport where connecting to the work item tracking API fails. -/
def trConnFail : Transport := ⟨false, true, true, true⟩

/-- An empty mirror store. -/
def stEmpty : MirrorState := ⟨[], 1⟩

/-- A store already holding the counterpart of `cfgScenario`'s issue. -/
def stWitness : MirrorState :=
  ⟨[⟨7, "GitHub Issue #42;GitHub Repo: acme/widgets;"⟩], 8⟩

/-! ## Helper predicates and lemmas -/

/-- Whether a patch operation is an `add` on the audit-history field. -/
def isHistoryAdd (o : PatchOp) : Bool :=
  o.path == histPath && o.op == "add"

/-- Whether a patch document contains an `add` on the audit-history field. -/
def hasHistoryAdd (patch : List PatchOp) : Bool :=
  patch.any isHistoryAdd

/-- Whether every operation of a patch document touching the audit-history
field is an `add` (no `replace`, no `remove`). -/
def historyOnlyAdded (patch : List PatchOp) : Bool :=
  patch.all (fun o => o.path != histPath || o.op == "add")

theorem pref_foldl (ls : List Label) :
    ∀ seed : String,
      seed.data <+:
        (ls.foldl (fun acc l => acc ++ "GitHub Label: " ++ l.name ++ ";") seed).data := by
  induction ls with
  | nil => intro seed; exact List.prefix_refl _
  | cons l ls ih =>
    intro seed
    have h1 : seed.data <+: (seed ++ "GitHub Label: " ++ l.name ++ ";").data := by
      simp only [String.data_append, List.append_assoc]
      exact ⟨_, rfl⟩
    exact h1.trans (ih (seed ++ "GitHub Label: " ++ l.name ++ ";"))

theorem pref_createLabels (seed : String) (ls : Option (List Label)) :
    seed.data <+: (createLabels seed ls).data := by
  cases ls with
  | none => exact List.prefix_refl _
  | some l => exact pref_foldl l seed

theorem wiMatches_created (cfg : Config) (i : Nat) :
    wiMatches ⟨i, createTagsValue cfg⟩ cfg = true := by
  have hseed : ("GitHub Issue #" ++ toString cfg.issue.number ++ ";" ++ "GitHub Repo: " ++
      cfg.repository.full_name ++ ";").data <+: (createTagsValue cfg).data :=
    pref_createLabels _ cfg.issue.labels
  simp only [wiMatches, containsSub, Bool.and_eq_true, decide_eq_true_eq]
  constructor
  · have h1 : ("GitHub Issue #" ++ toString cfg.issue.number).data <+:
        ("GitHub Issue #" ++ toString cfg.issue.number ++ ";" ++ "GitHub Repo: " ++
          cfg.repository.full_name ++ ";").data := by
      refine ⟨(";" ++ "GitHub Repo: " ++ cfg.repository.full_name ++ ";").data, ?_⟩
      simp only [String.data_append, List.append_assoc]
    exact (h1.trans hseed).isInfix
  · have h2 : ("GitHub Repo: " ++ cfg.repository.full_name).data <:+:
        ("GitHub Issue #" ++ toString cfg.issue.number ++ ";" ++ "GitHub Repo: " ++
          cfg.repository.full_name ++ ";").data := by
      refine ⟨("GitHub Issue #" ++ toString cfg.issue.number ++ ";").data, (";").data, ?_⟩
      simp only [String.data_append, List.append_assoc]
    exact h2.trans hseed.isInfix

theorem replaceFirstAux_self (t : List Char) (h : t ≠ []) :
    replaceFirstAux t [] t = [] := by
  match t with
  | c :: ts =>
    rw [replaceFirstAux]
    rw [if_pos (by simp)]
    simp [List.drop_length]

theorem not_prefix_append (u : List Char) (hu : ';' ∉ u) (a : List Char)
    (ha : a ≠ []) (hocc : ¬ ((u ++ [';']) <:+: a)) :
    ¬ ((u ++ [';']).isPrefixOf (a ++ (u ++ [';'])) = true) := by
  intro hb
  have hp : (u ++ [';']) <+: a ++ (u ++ [';']) := by simpa using hb
  by_cases hlen : (u ++ [';']).length ≤ a.length
  · have hpa : (u ++ [';']) <+: a :=
      List.prefix_of_prefix_length_le hp (List.prefix_append a (u ++ [';'])) hlen
    exact hocc hpa.isInfix
  · push_neg at hlen
    have halen : a.length ≤ u.length := by
      simp [List.length_append] at hlen
      omega
    obtain ⟨r, hr⟩ := hp
    have hdx := congrArg (fun l => l[u.length]?) hr
    simp only at hdx
    have hL : ((u ++ [';']) ++ r)[u.length]? = some ';' := by
      rw [List.getElem?_append_left (by simp)]
      rw [List.getElem?_append_right (Nat.le_refl _)]
      simp
    have hR : (a ++ (u ++ [';']))[u.length]? = u[u.length - a.length]? := by
      rw [List.getElem?_append_right halen]
      rw [List.getElem?_append_left (by
        have hapos : 1 ≤ a.length := by
          cases a with
          | nil => exact absurd rfl ha
          | cons x xs => simp
        omega)]
    rw [hL, hR] at hdx
    exact hu (List.getElem?_mem hdx.symm)

theorem replaceFirst_append_self (u : List Char) (hu : ';' ∉ u) :
    ∀ s : List Char, ¬ ((u ++ [';']) <:+: s) →
      replaceFirstAux (u ++ [';']) [] (s ++ (u ++ [';'])) = s := by
  intro s
  induction s with
  | nil =>
    intro _
    simp only [List.nil_append]
    exact replaceFirstAux_self _ (by simp)
  | cons c s' ih =>
    intro hocc
    rw [List.cons_append, replaceFirstAux]
    have hneg : ¬ ((u ++ [';']).isPrefixOf (c :: (s' ++ (u ++ [';']))) = true) :=
      not_prefix_append u hu (c :: s') (by simp) hocc
    rw [if_neg hneg]
    rw [ih (fun hinf => hocc (List.infix_cons hinf))]

/-! ## Claims -/

/-- C1: For every configuration whose (repository full name, issue number)
pair already has a located mirror work item, `createWorkItem` performs no
create write against the mirror store and returns the already-exists sentinel
`0`; and starting from a store with no matching counterpart, a first create
adds one matching work item and a second create call for the same pair with no
intervening deletion returns the sentinel and leaves the store unchanged, so
exactly one matching mirror work item remains. -/
theorem c1_create_idempotent (conv : String → String) (cfg : Config)
    (st : MirrorState) (tr : Transport) (hc : tr.connOk = true)
    (hq : tr.queryOk = true) (hf : tr.fetchOk = true) (hw : tr.writeOk = true) :
    (∀ w, getWorkItem tr st cfg false = LocResult.found w →
      (createWorkItem tr conv cfg st false).result = CreateResult.alreadyExists ∧
      (createWorkItem tr conv cfg st false).store = st) ∧
    (countMatches st cfg = 0 →
      countMatches (createWorkItem tr conv cfg st false).store cfg = 1 ∧
      (createWorkItem tr conv cfg
          (createWorkItem tr conv cfg st false).store false).result =
        CreateResult.alreadyExists ∧
      (createWorkItem tr conv cfg
          (createWorkItem tr conv cfg st false).store false).store =
        (createWorkItem tr conv cfg st false).store) := by
  constructor
  · intro w hfound
    unfold createWorkItem
    rw [hfound]
    exact ⟨rfl, rfl⟩
  · intro h0
    have hfilter : st.items.filter (fun w => wiMatches w cfg) = [] := by
      unfold countMatches at h0
      exact List.length_eq_zero.mp h0
    have hloc : getWorkItem tr st cfg false = LocResult.notFound := by
      simp [getWorkItem, hc, hq, hfilter]
    have hcreate : createWorkItem tr conv cfg st false =
        ⟨CreateResult.created ⟨st.nextId, createTagsValue cfg⟩,
          ⟨st.items ++ [⟨st.nextId, createTagsValue cfg⟩], st.nextId + 1⟩, false⟩ := by
      simp [createWorkItem, hloc, hw]
    rw [hcreate]
    have hloc2 : getWorkItem tr
        (⟨st.items ++ [⟨st.nextId, createTagsValue cfg⟩], st.nextId + 1⟩ : MirrorState)
        cfg false = LocResult.found ⟨st.nextId, createTagsValue cfg⟩ := by
      simp [getWorkItem, hc, hq, hf, List.filter_append, hfilter, wiMatches_created]
    refine ⟨?_, ?_, ?_⟩
    · unfold countMatches
      simp [List.filter_append, hfilter, wiMatches_created]
    · unfold createWorkItem
      rw [hloc2]
    · unfold createWorkItem
      rw [hloc2]

/-- C1 witness: with the counterpart of issue #42 already in the store, the
create call returns the already-exists sentinel and leaves the store as it
was. -/
theorem c1_create_idempotent_witness :
    (createWorkItem trOK (fun s => s) cfgScenario stWitness false).result =
      CreateResult.alreadyExists ∧
    (createWorkItem trOK (fun s => s) cfgScenario stWitness false).store = stWitness :=
  (c1_create_idempotent (fun s => s) cfgScenario stWitness trOK rfl rfl rfl rfl).1
    ⟨7, "GitHub Issue #42;GitHub Repo: acme/widgets;"⟩ (by decide)

/-- C2 counterexample: the claim's "iff" fails on the code.  With the work
item changed at 5, the issue updated at 3 and no exclude-label (so the right
side of the claimed equivalence holds), but every computed candidate equal to
the issue's current value, `updateIssue` issues no write. -/
theorem c2_claim_counterexample :
    ¬ ((isWrite (updateIssue (fun s => s) cfgStatesDone wiEq issEq) = true) ↔
       (wiEq.changedDate > issEq.updated_at ∧ hasNoado issEq.labels = false)) := by
  decide

/-- C2 (amended): reverse reconciliation writes to the origin issue only if
the mirror item's change timestamp is strictly greater than the origin
issue's update timestamp and the exclude-label is absent; when the change
timestamp is less than or equal to the update timestamp, no origin update
call is ever issued.  (The converse direction of the claimed "iff" fails:
with fresh timestamps the equality guard can still suppress the write.) -/
theorem c2_freshness_only_if (conv : String → String) (cfg : Config)
    (wi : WiFields) (issue : GhIssueData) :
    (isWrite (updateIssue conv cfg wi issue) = true →
      wi.changedDate > issue.updated_at ∧ hasNoado issue.labels = false) ∧
    (wi.changedDate ≤ issue.updated_at →
      isWrite (updateIssue conv cfg wi issue) = false) := by
  constructor
  · intro h
    unfold updateIssue at h
    split at h
    · simp [isWrite] at h
    · split at h
      · rename_i hcond
        exact hcond
      · simp [isWrite] at h
  · intro hle
    unfold updateIssue
    split
    · rfl
    · split
      · rename_i hcond
        exact absurd hcond.1 (by omega)
      · rfl

/-- C2 witness: a reconciliation that does write (diverging title, fresh
timestamp) satisfies the freshness conditions. -/
theorem c2_freshness_only_if_witness :
    wiW.changedDate > issEq.updated_at ∧ hasNoado issEq.labels = false :=
  (c2_freshness_only_if (fun s => s) cfgStatesDone wiW issEq).1 (by decide)

/-- C3: for a mirror work item and origin issue passing the freshness test,
if the computed candidate title, body and state equal the origin issue's
current values and the computed assignee equals the origin assignee under
case-insensitive comparison, `updateIssue` issues no update call. -/
theorem c3_equality_guard_noop (conv : String → String) (cfg : Config)
    (wi : WiFields) (issue : GhIssueData)
    (hfresh : wi.changedDate > issue.updated_at)
    (hlab : hasNoado issue.labels = false)
    (ht : wi.title = issue.title)
    (hb : computedBody conv wi = issue.body)
    (hs : deriveStateKey cfg.ado.states wi.state = some issue.state)
    (ha : (computedAssignee cfg wi).map toLowerStr =
      (issue.assignee.map (fun u => u.login)).map toLowerStr) :
    isWrite (updateIssue conv cfg wi issue) = false := by
  unfold updateIssue
  split
  · rfl
  · rw [if_pos ⟨hfresh, hlab⟩]
    rw [if_neg]
    · rfl
    · push_neg
      exact ⟨ht, hb, hs, ha⟩

/-- C3 witness: a concrete fresh work item agreeing with its issue in all
four candidates produces no write. -/
theorem c3_equality_guard_noop_witness :
    isWrite (updateIssue (fun s => s) cfgStatesDone wiEq issEq) = false :=
  c3_equality_guard_noop (fun s => s) cfgStatesDone wiEq issEq (by decide)
    (by decide) (by decide) (by decide) (by decide) (by decide)

/-- C4 counterexample: the close handler's history entry is conditional on
the closing timestamp; when `closed_at` is the empty string the built patch
document contains no operation on the audit-history field at all, refuting
the claim as stated for the close event. -/
theorem c4_claim_counterexample :
    hasHistoryAdd (buildPatch (fun s => s) cfgClosedEmpty "" GhAction.closed) = false := by
  decide

/-- C4 (amended): for every lifecycle event the built patch document contains
an `add` operation on the audit-history field — except the close event when
the closing timestamp is the literal empty string — and no patch document
ever contains a `replace` or `remove` operation on that field. -/
theorem c4_history_append_only (conv : String → String) (cfg : Config)
    (currentTags : String) (a : GhAction)
    (h : a = GhAction.closed → cfg.closed_at ≠ some "") :
    hasHistoryAdd (buildPatch conv cfg currentTags a) = true ∧
    historyOnlyAdded (buildPatch conv cfg currentTags a) = true := by
  cases a with
  | closed =>
    have hc := h rfl
    constructor
    · simp [buildPatch, closePatchDoc, hasHistoryAdd, isHistoryAdd, hc, histPath]
    · simp [buildPatch, closePatchDoc, historyOnlyAdded, hc, histPath]
  | opened =>
    constructor
    · simp [buildPatch, createPatchDoc, hasHistoryAdd, isHistoryAdd, histPath]
    · simp only [buildPatch, createPatchDoc, historyOnlyAdded]
      split <;> split <;> split <;> split <;> simp [histPath]
  | deleted =>
    exact ⟨by simp [buildPatch, deletePatchDoc, hasHistoryAdd, isHistoryAdd, histPath],
           by simp [buildPatch, deletePatchDoc, historyOnlyAdded, histPath]⟩
  | reopened =>
    exact ⟨by simp [buildPatch, reopenPatchDoc, hasHistoryAdd, isHistoryAdd, histPath],
           by simp [buildPatch, reopenPatchDoc, historyOnlyAdded, histPath]⟩
  | edited =>
    exact ⟨by simp [buildPatch, editPatchDoc, hasHistoryAdd, isHistoryAdd, histPath],
           by simp [buildPatch, editPatchDoc, historyOnlyAdded, histPath]⟩
  | labeled =>
    exact ⟨by simp [buildPatch, labelPatchDoc, hasHistoryAdd, isHistoryAdd, histPath],
           by simp [buildPatch, labelPatchDoc, historyOnlyAdded, histPath]⟩
  | unlabeled =>
    exact ⟨by simp [buildPatch, unlabelPatchDoc, hasHistoryAdd, isHistoryAdd, histPath],
           by simp [buildPatch, unlabelPatchDoc, historyOnlyAdded, histPath]⟩
  | assigned =>
    constructor
    · simp [buildPatch, assignPatchDoc, hasHistoryAdd, isHistoryAdd, histPath]
    · simp only [buildPatch, assignPatchDoc, historyOnlyAdded]
      split <;> simp [histPath]
  | unassigned =>
    exact ⟨by simp [buildPatch, unassignPatchDoc, hasHistoryAdd, isHistoryAdd, histPath],
           by simp [buildPatch, unassignPatchDoc, historyOnlyAdded, histPath]⟩
  | commented =>
    exact ⟨by simp [buildPatch, commentPatchDoc, hasHistoryAdd, isHistoryAdd, histPath],
           by simp [buildPatch, commentPatchDoc, historyOnlyAdded, histPath]⟩

/-- C4 witness: the close patch for the scenario configuration (a `none`
closing timestamp is not the empty string) appends its history entry and
never replaces or removes history. -/
theorem c4_history_append_only_witness :
    hasHistoryAdd (buildPatch (fun s => s) cfgScenario "" GhAction.closed) = true ∧
    historyOnlyAdded (buildPatch (fun s => s) cfgScenario "" GhAction.closed) = true :=
  c4_history_append_only (fun s => s) cfgScenario "" GhAction.closed (fun _ => by decide)

/-- C5: whenever the origin issue's label set contains a label whose name
case-insensitively equals `noado`, `performWork` applies the delete mutation
regardless of the triggering action, and that mutation sets the state field
to the configured deleted value and the resolution-reason field to the fixed
sentinel. -/
theorem c5_noado_short_circuit (conv : String → String) (cfg : Config)
    (currentTags : String) (h : hasNoado cfg.issue.labels = true) :
    performWork conv cfg currentTags = some (deletePatchDoc cfg) ∧
    ({ op := "add", path := "/fields/System.State",
       value := some (PatchValue.ofOpt (stateValue cfg.ado.states "deleted")) } : PatchOp)
        ∈ deletePatchDoc cfg ∧
    ({ op := "add", path := "/fields/IntuneAgile.ResolutionReason",
       value := some (PatchValue.str "Won\x27t Fix") } : PatchOp) ∈ deletePatchDoc cfg := by
  refine ⟨?_, ?_, ?_⟩
  · simp [performWork, h]
  · simp [deletePatchDoc]
  · simp [deletePatchDoc]

/-- Scenario configuration as an edit event whose issue carries the `NoAdo`
label. -/
def cfgNoado : Config :=
  { cfgScenario with
    action := "edited"
    issue := { cfgScenario.issue with labels := some [⟨ "NoAdo"⟩] } }

/-- C5 witness: an edit event on an issue labelled `NoAdo` short-circuits to
the delete mutation. -/
theorem c5_noado_short_circuit_witness :
    performWork (fun s => s) cfgNoado "" = some (deletePatchDoc cfgNoado) :=
  (c5_noado_short_circuit (fun s => s) cfgNoado "" (by decide)).1

/-- C6: exhibit of the caller-side handling of a locator transport failure.
`getWorkItem` does surface the failure as the error sentinel and the action is
marked failed, but `createWorkItem` guards with JS truthiness (`!!workItem`),
for which the error sentinel `-1` is truthy: the create path returns the
"already exists" sentinel `0` — proceeding exactly as if a counterpart work
item existed — instead of propagating the error, and `updateWorkItem`
(`!workItem` guard) falls through and issues a patch submission against an
undefined work item id.  The store itself receives no create write. -/
theorem c6_locator_failure_divergence :
    (createWorkItem trConnFail (fun s => s) cfgScenario stEmpty false).result =
      CreateResult.alreadyExists ∧
    (createWorkItem trConnFail (fun s => s) cfgScenario stEmpty false).store = stEmpty ∧
    (createWorkItem trConnFail (fun s => s) cfgScenario stEmpty false).failed = true ∧
    (updateWorkItem trConnFail (fun s => s) cfgScenario stEmpty
        (closePatchDoc cfgScenario)).calls = [none] ∧
    (updateWorkItem trConnFail (fun s => s) cfgScenario stEmpty
        (closePatchDoc cfgScenario)).failed = true := by
  refine ⟨rfl, rfl, rfl, rfl, rfl⟩

/-- C7: for issue #42 in repository `acme/widgets` with label list `[bug]`
and no assignee, the create patch document's tag-field value is exactly
`GitHub Issue #42;GitHub Repo: acme/widgets;GitHub Label: bug;` and the
patch document contains no operation on the state field. -/
theorem c7_scenario_tags_and_state :
    ((createPatchDoc (fun s => s) cfgScenario).find?
        (fun o => o.path == "/fields/System.Tags")).map (fun o => o.value) =
      some (some (PatchValue.str
        "GitHub Issue #42;GitHub Repo: acme/widgets;GitHub Label: bug;")) ∧
    (createPatchDoc (fun s => s) cfgScenario).all
        (fun o => o.path != "/fields/System.State") = true := by
  decide

/-- C8 counterexample: with a state table mapping both `closed` and `deleted`
to `Done`, the value stored under `deleted` is `Done`, yet the reverse lookup
returns `closed`, not `deleted` — refuting the claim over every configured
state table. -/
theorem c8_claim_counterexample :
    stateValue statesDup "deleted" = some "Done" ∧
    deriveStateKey statesDup "Done" ≠ some "deleted" := by decide

/-- C8 (amended): for every state table whose mirror state values are
pairwise distinct, and every key with a stored value, `deriveStateKey`
applied to that value returns the key itself.  (The counterexample forces the
injectivity hypothesis: `Object.keys(...).find` returns the first matching
key on a value collision.) -/
theorem c8_state_roundtrip (states : List (String × String)) (k v : String)
    (hnd : (states.map (fun p => p.2)).Nodup)
    (hk : stateValue states k = some v) :
    deriveStateKey states v = some k := by
  unfold stateValue at hk
  cases hfind : states.find? (fun p => p.1 == k) with
  | none => rw [hfind] at hk; simp at hk
  | some p =>
    rw [hfind] at hk
    simp at hk
    have hpmem : p ∈ states := List.mem_of_find?_eq_some hfind
    have hpk : p.1 = k := by
      have := List.find?_some hfind
      simpa using this
    have hsome : (states.find? (fun q => q.2 == v)).isSome := by
      rw [List.find?_isSome]
      exact ⟨p, hpmem, by simp [hk]⟩
    obtain ⟨q, hq⟩ := Option.isSome_iff_exists.mp hsome
    have hqmem : q ∈ states := List.mem_of_find?_eq_some hq
    have hqv : q.2 = v := by
      have := List.find?_some hq
      simpa using this
    have hqp : q = p := List.inj_on_of_nodup_map hnd hqmem hpmem (by rw [hqv, hk])
    unfold deriveStateKey
    rw [hq]
    simp [hqp, hpk]

/-- C8 witness: the scenario's injective table round-trips `deleted` through
its mirror value `Removed`. -/
theorem c8_state_roundtrip_witness :
    deriveStateKey [("closed", "Closed"), ("deleted", "Removed"), ("reopened", "Active")]
      "Removed" = some "deleted" :=
  c8_state_roundtrip
    [("closed", "Closed"), ("deleted", "Removed"), ("reopened", "Active")]
    "deleted" "Removed" (by decide) (by decide)

/-- C9 counterexample: when the pre-label tag string already contains the
label's tag substring, JS `replace` removes the first (pre-existing)
occurrence, so unlabel after label does not restore the original string:
from `GitHub Label: bug;X` labelling and unlabelling `bug` yields
`XGitHub Label: bug;`. -/
theorem c9_claim_counterexample :
    unlabelTags ("GitHub Label: bug;X" ++ labelTagValue ⟨ "bug"⟩) ⟨ "bug"⟩ ≠
      "GitHub Label: bug;X" := by decide

/-- C9 (amended): for every tag string `s` and label name containing no tag
delimiter, provided the label's tag substring does not already occur in `s`,
the unlabel subtraction applied to the tag field produced by the label
operation (which appends the single-label tag string) restores `s` exactly. -/
theorem c9_unlabel_after_label (s : String) (l : Label)
    (hname : ';' ∉ l.name.data)
    (hnotin : containsSub s (labelTagValue l) = false) :
    unlabelTags (s ++ labelTagValue l) l = s := by
  have hu : ';' ∉ ("GitHub Label: ".data ++ l.name.data) := by
    intro hmem
    rcases List.mem_append.mp hmem with h | h
    · revert h; decide
    · exact hname h
  have hdata : (labelTagValue l).data = ("GitHub Label: ".data ++ l.name.data) ++ [';'] := by
    simp [labelTagValue, createLabels]
  have hocc : ¬ ((("GitHub Label: ".data ++ l.name.data) ++ [';']) <:+: s.data) := by
    rw [← hdata]
    intro hinf
    rw [containsSub] at hnotin
    exact (decide_eq_false_iff_not.mp hnotin) hinf
  have hmain := replaceFirst_append_self _ hu s.data hocc
  unfold unlabelTags replaceFirstStr
  apply String.ext
  show replaceFirstAux (labelTagValue l).data ("" : String).data
      (s ++ labelTagValue l).data = s.data
  rw [String.data_append, hdata]
  exact hmain

/-- C9 witness: labelling then unlabelling `bug` on the scenario's seed tag
string (which does not contain the `bug` tag substring) is the identity. -/
theorem c9_unlabel_after_label_witness :
    unlabelTags ("GitHub Issue #42;GitHub Repo: acme/widgets;" ++ labelTagValue ⟨ "bug"⟩)
      ⟨ "bug"⟩ = "GitHub Issue #42;GitHub Repo: acme/widgets;" :=
  c9_unlabel_after_label "GitHub Issue #42;GitHub Repo: acme/widgets;" ⟨ "bug"⟩
    (by decide) (by decide)

/-- C10: for every configuration and converter, the create patch document
contains an `add` operation on the relations-append path whose value is a
`System.LinkTypes.Hierarchy-Reverse` (parent) link to the fixed URL
`https://dev.azure.com/msazure/one/_apis/wit/workItems/24493735`,
independent of any configuration value. -/
theorem c10_hardcoded_parent_link (conv : String → String) (cfg : Config) :
    ({ op := "add", path := "/relations/-",
       value := some (PatchValue.link "System.LinkTypes.Hierarchy-Reverse"
         "https://dev.azure.com/msazure/one/_apis/wit/workItems/24493735") } : PatchOp)
      ∈ createPatchDoc conv cfg := by
  simp [createPatchDoc]
